import Mathlib

/-!
Verification of the Withings integration subsystem
(`app/services/withings_service.py`, `app/services/withings_sync.py`,
`app/routers/withings.py`) against its natural-language specification.

Modelling conventions:
* Python `float` values are modelled as exact rationals (`Rat`); none of the
  verified properties depends on floating-point rounding.
* Unix timestamps and naive `datetime` values are modelled as `Int` seconds.
  `datetime.fromtimestamp(t)` converts an absolute instant to the host's
  local timezone; we model the host timezone as a fixed UTC offset `tz`
  (in seconds), so the naive local datetime corresponding to `t` is `t + tz`.
* Calendar dates are modelled as `Int` day ordinals (days since the epoch).
* SQLite tables are modelled as in-memory lists of row structures; the whole
  database is a `Db` value threaded through the sync functions.
* Python dictionaries coming from provider JSON are modelled as structures
  with `Option` fields; `d["k"]` on a missing key is a `KeyError`, so
  functions that index dictionaries return `Except String`.
* Async I/O is modelled with explicit oracles: an oracle maps the parameters
  of an outbound HTTP request to its response; `none` models a timeout,
  transport error or non-JSON body (all three are handled identically by the
  source: log and break).
-/

namespace Withings

/-- Convert kilograms to pounds (`kg_to_lbs`). -/
def kg_to_lbs (kg : Rat) : Rat := kg * (220462 / 100000 : Rat)

/-- Convert meters to miles (`meters_to_miles`). -/
def meters_to_miles (m : Rat) : Rat := m / (1609344 / 1000 : Rat)

/-- Convert meters to feet (`meters_to_feet`). -/
def meters_to_feet (m : Rat) : Rat := m * (328084 / 100000 : Rat)

/-- Parse a Withings scaled-integer measurement: `value * 10 ** unit`
(`parse_withings_value`). -/
def parse_withings_value (value : Int) (unit : Int) : Rat :=
  (value : Rat) * (10 : Rat) ^ unit

/-- Python `int(x)` on a rational: truncation toward zero. -/
def pyInt (q : Rat) : Int := if 0 ≤ q then q.floor else q.ceil

/-- Naive local datetime (seconds) of the Unix instant `t` on a host whose
UTC offset is `tz` seconds: models `datetime.fromtimestamp(t)`. -/
def local_naive (tz t : Int) : Int := t + tz

/-- Split a naive datetime (seconds) into `dt.date()` (day ordinal) and
`dt.time()` (seconds within the day). -/
def split_naive (n : Int) : Int × Int := (n.fdiv 86400, n.emod 86400)

/-- Python `str()` of an optional integer: `str(None) = "None"`. -/
def pyStr : Option Int → String
  | none => "None"
  | some n => toString n

/-! ## Token store and token lifecycle (`withings_service.py`) -/

/-- Row of the singleton `withings_tokens` table (`WithingsTokens` model). -/
structure WithingsTokens where
  access_token : String
  refresh_token : String
  expires_at : Int
  withings_user_id : Option String
  status : String
  updated_at : Int
  deriving Repr, DecidableEq

/-- The relevant Withings configuration (`settings`); an empty string models
an unset (falsy) value. -/
structure Settings where
  withings_client_id : String
  withings_client_secret : String
  deriving Repr, DecidableEq

/-- Provider response to a `requesttoken` refresh call, already decoded from
JSON.  `userid` is optional: the provider may omit it. -/
structure RefreshResp where
  status : Int
  access_token : String
  refresh_token : String
  expires_in : Int
  userid : Option String
  deriving Repr, DecidableEq

/-- `save_tokens`: upsert of the singleton credential row.  On conflict the
user id is `COALESCE(excluded.withings_user_id, withings_tokens.withings_user_id)`
and the status is reset to `'active'`; `now` models `CURRENT_TIMESTAMP`. -/
def save_tokens (now : Int) (st : Option WithingsTokens)
    (access_token refresh_token : String) (expires_at : Int)
    (withings_user_id : Option String) : Option WithingsTokens :=
  match st with
  | none => some ⟨access_token, refresh_token, expires_at, withings_user_id, "active", now⟩
  | some old =>
      some ⟨access_token, refresh_token, expires_at,
            (match withings_user_id with
             | some u => some u
             | none => old.withings_user_id),
            "active", now⟩

/-- `set_status`: update the status flag of the credential row, if present. -/
def set_status (now : Int) (st : Option WithingsTokens) (s : String) :
    Option WithingsTokens :=
  st.map (fun t => { t with status := s, updated_at := now })

/-- `is_token_valid`: a credential row exists and
`now < expires_at - 60 seconds`. -/
def is_token_valid (now : Int) (st : Option WithingsTokens) : Bool :=
  match st with
  | none => false
  | some t => decide (now < t.expires_at - 60)

/-- `refresh_tokens`: POST a refresh-token grant; the oracle maps the stored
refresh token to the provider's decoded response.  Returns the new credential
state together with the function's return value (`None` on failure). -/
def refresh_tokens (cfg : Settings) (oracle : String → RefreshResp)
    (now : Int) (st : Option WithingsTokens) :
    Option WithingsTokens × Option WithingsTokens :=
  if cfg.withings_client_id = "" ∨ cfg.withings_client_secret = "" then
    (st, none)
  else
    match st with
    | none => (st, none)
    | some t =>
        let resp := oracle t.refresh_token
        if resp.status ≠ 0 then
          (set_status now st "needs_reauth", none)
        else
          let st' := save_tokens now st resp.access_token resp.refresh_token
            (now + resp.expires_in) resp.userid
          (st', st')

/-- `get_valid_token`: return a valid access token, refreshing if needed.
Returns the new credential state together with the optional token. -/
def get_valid_token (cfg : Settings) (oracle : String → RefreshResp)
    (now : Int) (st : Option WithingsTokens) :
    Option WithingsTokens × Option String :=
  if is_token_valid now st then
    (st, st.map (·.access_token))
  else
    let r := refresh_tokens cfg oracle now st
    (r.1, r.2.map (·.access_token))


/-! ## Data model of the local store (`withings_sync.py`) -/

/-- Withings measurement type codes. -/
def MEAS_TYPE_WEIGHT : Int := 1
def MEAS_TYPE_FAT_MASS : Int := 8
def MEAS_TYPE_MUSCLE_MASS : Int := 76
def MEAS_TYPE_BONE_MASS : Int := 88
def MEAS_TYPE_BODY_WATER : Int := 77
def MEAS_TYPE_SYSTOLIC : Int := 10
def MEAS_TYPE_DIASTOLIC : Int := 9
def MEAS_TYPE_HEART_RATE : Int := 11

/-- Withings limits activity/sleep requests to 200 days (`MAX_ACTIVITY_DAYS`). -/
def MAX_ACTIVITY_DAYS : Int := 200

/-- One entry of a measure group's `measures` array; every key may be absent. -/
structure WithingsMeasure where
  value : Option Int
  unit : Option Int
  type : Option Int
  deriving Repr, DecidableEq

/-- One provider measure group (`body.measuregrps` entry). -/
structure MeasureGroup where
  grpid : Option Int
  date : Option Int
  measures : List WithingsMeasure
  deriving Repr, DecidableEq

/-- Row of the `body_measurements` table as inserted by the sync. -/
structure BodyRow where
  date : Int
  time : Int
  weight_lbs : Rat
  waist_cm : Option Rat
  fat_mass_lbs : Option Rat
  muscle_mass_lbs : Option Rat
  bone_mass_lbs : Option Rat
  body_water_pct : Option Rat
  source : String
  withings_id : String
  deriving Repr, DecidableEq

/-- Row of the `blood_pressure` table as inserted by the sync. -/
structure BloodPressureRow where
  date : Int
  time : Int
  systolic : Int
  diastolic : Int
  heart_rate : Option Int
  source : String
  withings_id : String
  deriving Repr, DecidableEq

/-- Row of the `daily_activity` table (one row per calendar date). -/
structure DailyActivityRow where
  date : String
  steps : Option Int
  distance_miles : Option Rat
  active_calories : Option Int
  elevation_ft : Option Rat
  source : String
  updated_at : Option Int
  deriving Repr, DecidableEq

/-- Row of the `sleep` table as inserted by the sync.  `sleep_start` and
`sleep_end` store the naive local datetime (seconds) whose `isoformat` the
source writes. -/
structure SleepRow where
  date : String
  sleep_start : Option Int
  sleep_end : Option Int
  duration_minutes : Option Int
  deep_minutes : Option Int
  light_minutes : Option Int
  rem_minutes : Option Int
  awake_minutes : Option Int
  source : String
  withings_id : String
  deriving Repr, DecidableEq

/-- The four tables the sync engine touches. -/
structure Db where
  body_measurements : List BodyRow
  blood_pressure : List BloodPressureRow
  daily_activity : List DailyActivityRow
  sleep : List SleepRow
  deriving Repr, DecidableEq

/-- Python `d["k"]` on an optional field: `KeyError` when absent. -/
def keyGet (o : Option α) (k : String) : Except String α :=
  match o with
  | some v => Except.ok v
  | none => Except.error ("KeyError: " ++ k)

/-- `datetime.fromtimestamp(t)` where `t` may be `None`: raises `TypeError`
on `None`, otherwise yields the naive local datetime. -/
def fromtimestamp_opt (tz : Int) (o : Option Int) : Except String Int :=
  match o with
  | some t => Except.ok (local_naive tz t)
  | none => Except.error "TypeError: fromtimestamp None"

/-- Accumulator of the body-composition parse loop. -/
structure BodyAcc where
  weight_kg : Option Rat
  fat_mass_kg : Option Rat
  muscle_mass_kg : Option Rat
  bone_mass_kg : Option Rat
  body_water_pct : Option Rat
  deriving Repr, DecidableEq

/-- One iteration of the body-composition parse loop over `measures`:
reads `m["value"]`, `m["unit"]`, `m["type"]` (raising `KeyError` on a missing
key) and records the value under the recognised type codes; unknown codes are
ignored. -/
def body_measure_step (acc : BodyAcc) (m : WithingsMeasure) :
    Except String BodyAcc := do
  let v ← keyGet m.value "value"
  let u ← keyGet m.unit "unit"
  let value := parse_withings_value v u
  let ty ← keyGet m.type "type"
  pure (if ty = MEAS_TYPE_WEIGHT then { acc with weight_kg := some value }
    else if ty = MEAS_TYPE_FAT_MASS then { acc with fat_mass_kg := some value }
    else if ty = MEAS_TYPE_MUSCLE_MASS then { acc with muscle_mass_kg := some value }
    else if ty = MEAS_TYPE_BONE_MASS then { acc with bone_mass_kg := some value }
    else if ty = MEAS_TYPE_BODY_WATER then { acc with body_water_pct := some value }
    else acc)

/-- Python `kg_to_lbs(x) if x else None`: a `0` value is falsy and yields
`None`, exactly as in the source. -/
def truthy_map (f : Rat → Rat) : Option Rat → Option Rat
  | none => none
  | some v => if v = 0 then none else some (f v)

/-- `sync_body_measurements`, body of the loop for one measure group:
duplicate probe on `withings_id`, parse of the measures, required-weight
check, then the local-time timestamp split and the insert. -/
def sync_body_one (tz : Int) (db : Db) (grp : MeasureGroup) :
    Except String (Nat × Db) :=
  let grp_id := pyStr grp.grpid
  if db.body_measurements.any (fun r => r.withings_id == grp_id) then
    Except.ok (0, db)
  else do
    let acc ← grp.measures.foldlM body_measure_step ⟨none, none, none, none, none⟩
    match acc.weight_kg with
    | none => Except.ok (0, db)
    | some w =>
        let weight_lbs := kg_to_lbs w
        let fat_mass_lbs := truthy_map kg_to_lbs acc.fat_mass_kg
        let muscle_mass_lbs := truthy_map kg_to_lbs acc.muscle_mass_kg
        let bone_mass_lbs := truthy_map kg_to_lbs acc.bone_mass_kg
        let n ← fromtimestamp_opt tz grp.date
        let dt := split_naive n
        let row : BodyRow :=
          ⟨dt.1, dt.2, weight_lbs, none, fat_mass_lbs, muscle_mass_lbs,
           bone_mass_lbs, acc.body_water_pct, "withings", grp_id⟩
        Except.ok (1, { db with body_measurements := db.body_measurements ++ [row] })

/-- `sync_body_measurements`: fold of `sync_body_one` over the groups,
summing the inserted-row count. -/
def sync_body_measurements (tz : Int) (db : Db) (groups : List MeasureGroup) :
    Except String (Nat × Db) :=
  groups.foldlM (fun acc grp => do
    let r ← sync_body_one tz acc.2 grp
    pure (acc.1 + r.1, r.2)) (0, db)

/-- Accumulator of the blood-pressure parse loop. -/
structure BpAcc where
  systolic : Option Int
  diastolic : Option Int
  heart_rate : Option Int
  deriving Repr, DecidableEq

/-- One iteration of the blood-pressure parse loop (`int(value)` truncates
toward zero like Python `int()`). -/
def bp_measure_step (acc : BpAcc) (m : WithingsMeasure) :
    Except String BpAcc := do
  let v ← keyGet m.value "value"
  let u ← keyGet m.unit "unit"
  let value := parse_withings_value v u
  let ty ← keyGet m.type "type"
  pure (if ty = MEAS_TYPE_SYSTOLIC then { acc with systolic := some (pyInt value) }
    else if ty = MEAS_TYPE_DIASTOLIC then { acc with diastolic := some (pyInt value) }
    else if ty = MEAS_TYPE_HEART_RATE then { acc with heart_rate := some (pyInt value) }
    else acc)

/-- `sync_blood_pressure`, body of the loop for one measure group. -/
def sync_bp_one (tz : Int) (db : Db) (grp : MeasureGroup) :
    Except String (Nat × Db) :=
  let grp_id := pyStr grp.grpid
  if db.blood_pressure.any (fun r => r.withings_id == grp_id) then
    Except.ok (0, db)
  else do
    let acc ← grp.measures.foldlM bp_measure_step ⟨none, none, none⟩
    match acc.systolic, acc.diastolic with
    | some sys, some dia =>
        let n ← fromtimestamp_opt tz grp.date
        let dt := split_naive n
        let row : BloodPressureRow :=
          ⟨dt.1, dt.2, sys, dia, acc.heart_rate, "withings", grp_id⟩
        Except.ok (1, { db with blood_pressure := db.blood_pressure ++ [row] })
    | _, _ => Except.ok (0, db)

/-- `sync_blood_pressure`: fold of `sync_bp_one` over the groups. -/
def sync_blood_pressure (tz : Int) (db : Db) (groups : List MeasureGroup) :
    Except String (Nat × Db) :=
  groups.foldlM (fun acc grp => do
    let r ← sync_bp_one tz acc.2 grp
    pure (acc.1 + r.1, r.2)) (0, db)

/-- One provider daily-activity record (`body.activities` entry). -/
structure WithingsActivity where
  date : Option String
  steps : Option Int
  distance : Option Rat
  calories : Option Rat
  elevation : Option Rat
  deriving Repr, DecidableEq

/-- `sync_activity`, body of the loop for one record: skip on a falsy date,
convert units (`distance`/`elevation` with Python truthiness, `calories` with
an `is not None` check), then upsert keyed by the date. -/
def sync_activity_one (now : Int) (db : Db) (act : WithingsActivity) :
    Nat × Db :=
  match act.date with
  | none => (0, db)
  | some d =>
      if d = "" then (0, db)
      else
        let distance_miles := truthy_map meters_to_miles act.distance
        let active_calories := act.calories.map pyInt
        let elevation_ft := truthy_map meters_to_feet act.elevation
        if db.daily_activity.any (fun r => r.date == d) then
          (1, { db with daily_activity := db.daily_activity.map (fun r =>
            if r.date == d then
              { r with steps := act.steps, distance_miles := distance_miles,
                       active_calories := active_calories,
                       elevation_ft := elevation_ft,
                       source := "withings", updated_at := some now }
            else r) })
        else
          (1, { db with daily_activity := db.daily_activity ++
            [⟨d, act.steps, distance_miles, active_calories, elevation_ft,
              "withings", none⟩] })

/-- `sync_activity`: fold of `sync_activity_one`, counting every upsert. -/
def sync_activity (now : Int) (db : Db) (activities : List WithingsActivity) :
    Nat × Db :=
  activities.foldl (fun acc act =>
    let r := sync_activity_one now acc.2 act
    (acc.1 + r.1, r.2)) (0, db)

/-- Per-stage durations of one sleep-summary record (`data` sub-dictionary);
all keys optional, read with `data.get(key, 0)` or a truthiness check. -/
structure SleepData where
  durationtosleep : Option Int
  durationtowakeup : Option Int
  deepsleepduration : Option Int
  lightsleepduration : Option Int
  remsleepduration : Option Int
  wakeupduration : Option Int
  deriving Repr, DecidableEq

/-- One provider sleep-summary record (`body.series` entry). -/
structure SleepSeries where
  id : Option Int
  date : Option String
  startdate : Option Int
  enddate : Option Int
  data : SleepData
  deriving Repr, DecidableEq

/-- `str(sleep.get("id", sleep.get("date", "")))`: the provider session id,
or the date string, or the empty string. -/
def sleep_ext_id (s : SleepSeries) : String :=
  match s.id with
  | some i => toString i
  | none => match s.date with
    | some d => d
    | none => ""

/-- Python `x // 60 if x else None` over an optional stage duration. -/
def truthy_div60 : Option Int → Option Int
  | none => none
  | some v => if v = 0 then none else some (v.fdiv 60)

/-- Python `datetime.fromtimestamp(t).isoformat() if t else None`: `0` is
falsy; the stored value is the naive local datetime in seconds. -/
def truthy_local (tz : Int) : Option Int → Option Int
  | none => none
  | some t => if t = 0 then none else some (local_naive tz t)

/-- `sync_sleep`, body of the loop for one record: skip on a falsy date,
duplicate probe on `withings_id`, then derive the minute breakdowns and
insert. -/
def sync_sleep_one (tz : Int) (db : Db) (s : SleepSeries) : Nat × Db :=
  let sleep_id := sleep_ext_id s
  match s.date with
  | none => (0, db)
  | some d =>
      if d = "" then (0, db)
      else if db.sleep.any (fun r => r.withings_id == sleep_id) then (0, db)
      else
        let total_sleep_seconds := s.data.deepsleepduration.getD 0 +
          s.data.lightsleepduration.getD 0 + s.data.remsleepduration.getD 0
        let duration_minutes :=
          if total_sleep_seconds = 0 then none
          else some (total_sleep_seconds.fdiv 60)
        let row : SleepRow :=
          ⟨d, truthy_local tz s.startdate, truthy_local tz s.enddate,
           duration_minutes,
           truthy_div60 s.data.deepsleepduration,
           truthy_div60 s.data.lightsleepduration,
           truthy_div60 s.data.remsleepduration,
           truthy_div60 s.data.wakeupduration,
           "withings", sleep_id⟩
        (1, { db with sleep := db.sleep ++ [row] })

/-- `sync_sleep`: fold of `sync_sleep_one` over the records. -/
def sync_sleep (tz : Int) (db : Db) (series : List SleepSeries) : Nat × Db :=
  series.foldl (fun acc s =>
    let r := sync_sleep_one tz acc.2 s
    (acc.1 + r.1, r.2)) (0, db)

/-! ## Paginated fetchers (`withings_sync.py`)

The three fetch loops in the source (`fetch_measurements`,
`fetch_activity_chunk`, `fetch_sleep_chunk`) are textually identical except
for the endpoint, the date parameters and the response array; they are
modelled by one generic cursor loop `fetch_pages` instantiated per domain.
The loop is a `while True` whose only exits are a transport/JSON error, a
non-zero provider status, or `more != 1 or not offset`; it has no iteration
bound in the source, so the model carries an explicit `fuel` and returns
`none` when the loop has not terminated within `fuel` iterations. -/

/-- Decoded provider response envelope for one page of a data endpoint. -/
structure PageResp (α : Type) where
  status : Int
  more : Option Int
  offset : Option Nat
  items : List α
  deriving Repr, DecidableEq

/-- Python truthiness of the optional `body.offset` value. -/
def offset_truthy : Option Nat → Bool
  | none => false
  | some n => n != 0

/-- The cursor loop shared by the three fetchers.  `oracle` maps the offset
sent with a request (`0` means the `offset` parameter is omitted) to the
response; `none` models a timeout, transport error, or invalid JSON, which
break the loop keeping the accumulated items.  Returns the accumulated items
and the number of requests issued, or `none` if the loop is still running
after `fuel` requests. -/
def fetch_pages (oracle : Nat → Option (PageResp α)) :
    Nat → Nat → List α → Nat → Option (List α × Nat)
  | 0, _, _, _ => none
  | fuel + 1, off, acc, calls =>
    match oracle off with
    | none => some (acc, calls + 1)
    | some r =>
        if r.status ≠ 0 then some (acc, calls + 1)
        else
          let acc2 := acc ++ r.items
          if r.more = some 1 ∧ offset_truthy r.offset then
            fetch_pages oracle fuel (r.offset.getD 0) acc2 (calls + 1)
          else some (acc2, calls + 1)

/-- `generate_date_chunks`, recursion on explicit fuel; the source loop
consumes at least one day per chunk whenever `chunk_days ≥ 1`, which is the
only way it is called (`MAX_ACTIVITY_DAYS = 200`), so `e + 1 - s` iterations
always suffice.  (For `chunk_days ≤ 0` the Python loop would not terminate.) -/
def generate_date_chunks_aux : Nat → Int → Int → Int → List (Int × Int)
  | 0, _, _, _ => []
  | fuel + 1, s, e, chunk_days =>
    if s ≤ e then
      let ce := min (s + chunk_days - 1) e
      (s, ce) :: generate_date_chunks_aux fuel (ce + 1) e chunk_days
    else []

/-- `generate_date_chunks`: split `[s, e]` into consecutive chunks of at most
`chunk_days` days. -/
def generate_date_chunks (s e chunk_days : Int) : List (Int × Int) :=
  generate_date_chunks_aux (e + 1 - s).toNat s e chunk_days

/-- `int(datetime.combine(start_date, time.min).timestamp())`: epoch seconds
of local midnight of day ordinal `d` on a host with UTC offset `tz`. -/
def start_of_day_ts (tz d : Int) : Int := d * 86400 - tz

/-- `int(datetime.combine(end_date, time.max).timestamp())`: epoch seconds
(truncated) of local `23:59:59.999999` of day ordinal `d`. -/
def end_of_day_ts (tz d : Int) : Int := d * 86400 + 86399 - tz

/-- External-world parameters of a sync run: the configuration, the
token-endpoint oracle, the current time, the host UTC offset, the stored
credential row, and one oracle per data endpoint.  A data oracle maps the
request parameters (window bounds and pagination offset) to the decoded
response, `none` modelling a transport/JSON failure. -/
structure SyncEnv where
  cfg : Settings
  token_oracle : String → RefreshResp
  now : Int
  tz : Int
  tokens : Option WithingsTokens
  measure_oracle : Int → Int → Nat → Option (PageResp MeasureGroup)
  activity_oracle : Int → Int → Nat → Option (PageResp WithingsActivity)
  sleep_oracle : Int → Int → Nat → Option (PageResp SleepSeries)

/-- The bearer token a fetcher starts with: the result of
`get_valid_token()`.  (The credential-state side effect of a refresh is not
needed by the fetch claims and is dropped here.) -/
def env_token (env : SyncEnv) : Option String :=
  (get_valid_token env.cfg env.token_oracle env.now env.tokens).2

/-- `fetch_measurements`: single cursor-paginated fetch over
`[startdate, enddate]` Unix-second bounds; with no valid token it logs and
returns the empty list without any request. -/
def fetch_measurements (env : SyncEnv) (fuel : Nat) (s e : Int) :
    Option (List MeasureGroup × Nat) :=
  match env_token env with
  | none => some ([], 0)
  | some _ =>
      fetch_pages (env.measure_oracle (start_of_day_ts env.tz s)
        (end_of_day_ts env.tz e)) fuel 0 [] 0

/-- `fetch_activity`: 200-day chunking via `generate_date_chunks`, one cursor
loop per chunk, all results concatenated; `fuel` bounds each chunk's loop. -/
def fetch_activity (env : SyncEnv) (fuel : Nat) (s e : Int) :
    Option (List WithingsActivity × Nat) :=
  match env_token env with
  | none => some ([], 0)
  | some _ =>
      (generate_date_chunks s e MAX_ACTIVITY_DAYS).foldlM
        (fun (acc : List WithingsActivity × Nat) c =>
          (fetch_pages (env.activity_oracle c.1 c.2) fuel 0 [] 0).map
            (fun r => (acc.1 ++ r.1, acc.2 + r.2))) ([], 0)

/-- `fetch_sleep`: same chunking and pagination as `fetch_activity`. -/
def fetch_sleep (env : SyncEnv) (fuel : Nat) (s e : Int) :
    Option (List SleepSeries × Nat) :=
  match env_token env with
  | none => some ([], 0)
  | some _ =>
      (generate_date_chunks s e MAX_ACTIVITY_DAYS).foldlM
        (fun (acc : List SleepSeries × Nat) c =>
          (fetch_pages (env.sleep_oracle c.1 c.2) fuel 0 [] 0).map
            (fun r => (acc.1 ++ r.1, acc.2 + r.2))) ([], 0)

/-! ## Dispatcher (`sync_by_appli`, `backfill_all`) -/

/-- Python truthiness of an optional Unix timestamp webhook parameter. -/
def ts_truthy : Option Int → Bool
  | none => false
  | some t => t != 0

instance {ε α : Type} [DecidableEq ε] [DecidableEq α] : DecidableEq (Except ε α) := fun x y =>
  match x, y with
  | Except.error a, Except.error b =>
      if h : a = b then isTrue (by subst h; rfl)
      else isFalse (by intro hc; injection hc; contradiction)
  | Except.error _, Except.ok _ => isFalse (by intro hc; cases hc)
  | Except.ok _, Except.error _ => isFalse (by intro hc; cases hc)
  | Except.ok a, Except.ok b =>
      if h : a = b then isTrue (by subst h; rfl)
      else isFalse (by intro hc; injection hc; contradiction)

/-- Result of one `sync_by_appli` dispatch: the sync outcome, the names of
the fetch/sync functions that were invoked, and the warnings logged. -/
structure DispatchResult where
  result : Except String (Nat × Db)
  invoked : List String
  warnings : List String
  deriving Repr, DecidableEq

/-- `sync_by_appli`: choose the window (`[today - 7, today]` unless both
bounds are present and truthy), then dispatch on the appli code; an unknown
code logs a warning and returns 0 without invoking any fetch or sync
function. -/
def sync_by_appli (env : SyncEnv) (fuel : Nat) (db : Db) (today : Int)
    (appli : Int) (startdate enddate : Option Int) : Option DispatchResult :=
  let window : Int × Int :=
    if ts_truthy startdate ∧ ts_truthy enddate then
      ((split_naive (local_naive env.tz (startdate.getD 0))).1,
       (split_naive (local_naive env.tz (enddate.getD 0))).1)
    else (today - 7, today)
  let s := window.1
  let e := window.2
  if appli = 1 then
    (fetch_measurements env fuel s e).map (fun r =>
      ⟨sync_body_measurements env.tz db r.1,
       ["fetch_measurements", "sync_body_measurements"], []⟩)
  else if appli = 4 then
    (fetch_measurements env fuel s e).map (fun r =>
      ⟨sync_blood_pressure env.tz db r.1,
       ["fetch_measurements", "sync_blood_pressure"], []⟩)
  else if appli = 16 then
    (fetch_activity env fuel s e).map (fun r =>
      ⟨Except.ok (sync_activity env.now db r.1),
       ["fetch_activity", "sync_activity"], []⟩)
  else if appli = 44 then
    (fetch_sleep env fuel s e).map (fun r =>
      ⟨Except.ok (sync_sleep env.tz db r.1),
       ["fetch_sleep", "sync_sleep"], []⟩)
  else
    some ⟨Except.ok (0, db), [], ["Unknown appli code: " ++ toString appli]⟩

/-- Per-domain counts returned by `backfill_all`. -/
structure BackfillCounts where
  body_measurements : Nat
  blood_pressure : Nat
  daily_activity : Nat
  sleep : Nat
  deriving Repr, DecidableEq

/-- `backfill_all`: one measurements fetch feeding both the body and the
blood-pressure syncs, then the activity fetch+sync, then the sleep
fetch+sync, strictly in sequence with no exception handling: an exception
raised by a sync propagates and the remaining domains do not run. -/
def backfill_all (env : SyncEnv) (fuel : Nat) (db : Db) (s e : Int) :
    Option (Except String (BackfillCounts × Db)) :=
  match fetch_measurements env fuel s e with
  | none => none
  | some (groups, _) =>
    match sync_body_measurements env.tz db groups with
    | Except.error msg => some (Except.error msg)
    | Except.ok (c1, db1) =>
      match sync_blood_pressure env.tz db1 groups with
      | Except.error msg => some (Except.error msg)
      | Except.ok (c2, db2) =>
        match fetch_activity env fuel s e with
        | none => none
        | some (acts, _) =>
          let r3 := sync_activity env.now db2 acts
          match fetch_sleep env fuel s e with
          | none => none
          | some (sl, _) =>
            let r4 := sync_sleep env.tz r3.2 sl
            some (Except.ok (⟨c1, c2, r3.1, r4.1⟩, r4.2))

/-! ## Webhook signature verification (`verify_signature`)

The source computes `hmac.new(secret.encode(), body, hashlib.sha256)` and
compares the provided signature, via constant-time string equality, against
both the hex and the base64 encoding of the digest.  SHA-256 is implemented
below over byte lists, with the round and initial-hash constants obtained as
the fractional parts of the cube/square roots of the first primes (their
standard definition). -/

/-- The first 64 primes, whose cube roots yield the SHA-256 round constants. -/
def sha256_primes : List Nat :=
  [2, 3, 5, 7, 11, 13, 17, 19, 23, 29, 31, 37, 41, 43, 47, 53,
   59, 61, 67, 71, 73, 79, 83, 89, 97, 101, 103, 107, 109, 113, 127, 131,
   137, 139, 149, 151, 157, 163, 167, 173, 179, 181, 191, 193, 197, 199, 211, 223,
   227, 229, 233, 239, 241, 251, 257, 263, 269, 271, 277, 281, 283, 293, 307, 311]

/-- Bisection step for the integer cube root. -/
def cbrt_aux (n : Nat) : Nat → Nat → Nat → Nat
  | 0, lo, _ => lo
  | fuel + 1, lo, hi =>
    let m := (lo + hi) / 2
    if m = lo then lo
    else if m * m * m ≤ n then cbrt_aux n fuel m hi
    else cbrt_aux n fuel lo m

/-- Integer cube root by bisection (256 iterations cover every operand used). -/
def nat_cbrt (n : Nat) : Nat := cbrt_aux n 256 0 (n + 1)

/-- SHA-256 round constants: fractional bits of the cube roots of the first
64 primes. -/
def K256 : List Nat := sha256_primes.map (fun p => nat_cbrt (p * 2 ^ 96) % 2 ^ 32)

/-- SHA-256 initial hash: fractional bits of the square roots of the first
8 primes. -/
def H256 : List Nat := (sha256_primes.take 8).map (fun p => Nat.sqrt (p * 2 ^ 64) % 2 ^ 32)

/-- Truncation to a 32-bit word. -/
def w32 (n : Nat) : Nat := n % 4294967296

/-- Right rotation of a 32-bit word by `k`. -/
def rotr32 (k x : Nat) : Nat := w32 (x / 2 ^ k + x % 2 ^ k * 2 ^ (32 - k))

/-- Bitwise complement of a 32-bit word. -/
def not32 (x : Nat) : Nat := Nat.xor x 4294967295

def sha_ch (e f g : Nat) : Nat := Nat.xor (Nat.land e f) (Nat.land (not32 e) g)

def sha_maj (a b c : Nat) : Nat :=
  Nat.xor (Nat.xor (Nat.land a b) (Nat.land a c)) (Nat.land b c)

def sha_big_s0 (x : Nat) : Nat := Nat.xor (Nat.xor (rotr32 2 x) (rotr32 13 x)) (rotr32 22 x)
def sha_big_s1 (x : Nat) : Nat := Nat.xor (Nat.xor (rotr32 6 x) (rotr32 11 x)) (rotr32 25 x)
def sha_small_s0 (x : Nat) : Nat := Nat.xor (Nat.xor (rotr32 7 x) (rotr32 18 x)) (x / 2 ^ 3)
def sha_small_s1 (x : Nat) : Nat := Nat.xor (Nat.xor (rotr32 17 x) (rotr32 19 x)) (x / 2 ^ 10)

/-- The eight working words of the SHA-256 compression state. -/
structure Sha256State where
  a : Nat
  b : Nat
  c : Nat
  d : Nat
  e : Nat
  f : Nat
  g : Nat
  h : Nat
  deriving Repr, DecidableEq

def sha256_init : Sha256State :=
  ⟨H256.getD 0 0, H256.getD 1 0, H256.getD 2 0, H256.getD 3 0,
   H256.getD 4 0, H256.getD 5 0, H256.getD 6 0, H256.getD 7 0⟩

/-- `k` bytes of `n`, big endian. -/
def be_bytes : Nat → Nat → List Nat
  | 0, _ => []
  | k + 1, n => be_bytes k (n / 256) ++ [n % 256]

/-- Group a 64-byte block into sixteen 32-bit big-endian words. -/
def block_words : List Nat → List Nat
  | b0 :: b1 :: b2 :: b3 :: rest =>
      (((b0 % 256 * 256 + b1 % 256) * 256 + b2 % 256) * 256 + b3 % 256) :: block_words rest
  | _ => []

/-- One extension step of the SHA-256 message schedule. -/
def schedule_step (w : List Nat) : List Nat :=
  w ++ [w32 (sha_small_s1 (w.getD (w.length - 2) 0) + w.getD (w.length - 7) 0 +
    sha_small_s0 (w.getD (w.length - 15) 0) + w.getD (w.length - 16) 0)]

/-- The 64-word SHA-256 message schedule of one block. -/
def msg_schedule (w16 : List Nat) : List Nat :=
  (List.range 48).foldl (fun w _ => schedule_step w) w16

/-- One SHA-256 compression round. -/
def sha_round (w : List Nat) (st : Sha256State) (t : Nat) : Sha256State :=
  let t1 := w32 (st.h + sha_big_s1 st.e + sha_ch st.e st.f st.g +
    K256.getD t 0 + w.getD t 0)
  let t2 := w32 (sha_big_s0 st.a + sha_maj st.a st.b st.c)
  ⟨w32 (t1 + t2), st.a, st.b, st.c, w32 (st.d + t1), st.e, st.f, st.g⟩

/-- Compress one 64-byte block into the running hash state. -/
def process_block (st : Sha256State) (block : List Nat) : Sha256State :=
  let w := msg_schedule (block_words block)
  let s := (List.range 64).foldl (sha_round w) st
  ⟨w32 (st.a + s.a), w32 (st.b + s.b), w32 (st.c + s.c), w32 (st.d + s.d),
   w32 (st.e + s.e), w32 (st.f + s.f), w32 (st.g + s.g), w32 (st.h + s.h)⟩

/-- SHA-256 padding: `0x80`, zeros to 56 mod 64, then the 64-bit bit length. -/
def sha256_pad (msg : List Nat) : List Nat :=
  let l := msg.length
  msg ++ [128] ++ List.replicate ((64 - (l + 9) % 64) % 64) 0 ++
    be_bytes 8 (8 * l)

/-- Split a padded message into 64-byte blocks. -/
def to_blocks (l : List Nat) : List (List Nat) :=
  if h : l = [] then []
  else l.take 64 :: to_blocks (l.drop 64)
  termination_by l.length
  decreasing_by
    simp [List.length_drop]
    exact List.length_pos.mpr h

/-- SHA-256 digest (32 bytes) of a byte list. -/
def sha256 (msg : List Nat) : List Nat :=
  let st := (to_blocks (sha256_pad msg)).foldl process_block sha256_init
  be_bytes 4 st.a ++ be_bytes 4 st.b ++ be_bytes 4 st.c ++ be_bytes 4 st.d ++
    be_bytes 4 st.e ++ be_bytes 4 st.f ++ be_bytes 4 st.g ++ be_bytes 4 st.h

/-- HMAC-SHA256 (`hmac.new(key, msg, hashlib.sha256).digest()`). -/
def hmac_sha256 (key msg : List Nat) : List Nat :=
  let k0 := if 64 < key.length then sha256 key else key
  let k := k0 ++ List.replicate (64 - k0.length) 0
  let ipad := k.map (fun b => Nat.xor b 54)
  let opad := k.map (fun b => Nat.xor b 92)
  sha256 (opad ++ sha256 (ipad ++ msg))

/-- Lower-case hex digit. -/
def hex_digit (n : Nat) : Char :=
  if n < 10 then Char.ofNat (48 + n) else Char.ofNat (87 + n % 16)

/-- `bytes.hex()`: lower-case hex encoding, two characters per byte. -/
def bytes_hex (l : List Nat) : String :=
  String.mk (l.foldr (fun b cs => hex_digit (b / 16 % 16) :: hex_digit (b % 16) :: cs) [])

/-- Standard base64 alphabet character for a 6-bit value. -/
def b64_char (n : Nat) : Char :=
  if n < 26 then Char.ofNat (65 + n)
  else if n < 52 then Char.ofNat (97 + (n - 26))
  else if n < 62 then Char.ofNat (48 + (n - 52))
  else if n = 62 then Char.ofNat 43
  else Char.ofNat 47

/-- Base64 encoding of a byte list, three bytes to four characters, padded
with `=` (character 61). -/
def b64_chunks : List Nat → List Char
  | [] => []
  | [b1] =>
      let n := b1 % 256 * 65536
      [b64_char (n / 262144), b64_char (n / 4096 % 64), Char.ofNat 61, Char.ofNat 61]
  | [b1, b2] =>
      let n := b1 % 256 * 65536 + b2 % 256 * 256
      [b64_char (n / 262144), b64_char (n / 4096 % 64), b64_char (n / 64 % 64), Char.ofNat 61]
  | b1 :: b2 :: b3 :: rest =>
      let n := b1 % 256 * 65536 + b2 % 256 * 256 + b3 % 256
      b64_char (n / 262144) :: b64_char (n / 4096 % 64) :: b64_char (n / 64 % 64) ::
        b64_char (n % 64) :: b64_chunks rest

/-- `base64.b64encode(mac).decode()`. -/
def b64encode (l : List Nat) : String := String.mk (b64_chunks l)

/-- UTF-8 bytes of one character (`str.encode()`). -/
def utf8_char (c : Char) : List Nat :=
  let n := c.toNat
  if n < 128 then [n]
  else if n < 2048 then [192 + n / 64, 128 + n % 64]
  else if n < 65536 then [224 + n / 4096, 128 + n / 64 % 64, 128 + n % 64]
  else [240 + n / 262144, 128 + n / 4096 % 64, 128 + n / 64 % 64, 128 + n % 64]

/-- `str.encode()`: UTF-8 bytes of a string. -/
def str_utf8 (s : String) : List Nat := s.data.foldr (fun c acc => utf8_char c ++ acc) []

/-- `verify_signature`: false when no shared secret is configured; otherwise
compute the HMAC-SHA256 of the raw body under the secret and compare the
provided signature, by constant-time equality (`hmac.compare_digest`, plain
equality on the values), against both the hex and the base64 encoding of the
digest. -/
def verify_signature (secret : String) (body : List Nat) (signature : String) : Bool :=
  if secret = "" then false
  else
    let mac := hmac_sha256 (str_utf8 secret) body
    (bytes_hex mac == signature) || (b64encode mac == signature)

/-- The `/webhook` route up to its response: verify the signature against the
raw body (401 on failure); on success the sync is dispatched as a background
task after the response, so the returned value is `ok` regardless of the
appli code or of any later sync outcome. -/
def webhook_response (secret : String) (raw_body : List Nat) (signature : String)
    (_appli : Int) : Except Nat String :=
  if verify_signature secret raw_body signature then Except.ok "ok"
  else Except.error 401

/-- A response that does not ask for another page (`more != 1`). -/
def single_page {α : Type} (r : Option (PageResp α)) : Prop :=
  ∀ p, r = some p → p.more ≠ some 1

/-- A response that is a transport failure or a provider rejection
(non-zero status). -/
def page_fails {α : Type} (r : Option (PageResp α)) : Prop :=
  ∀ p, r = some p → p.status ≠ 0

/-- Environment whose data oracles always answer `status 0, more = 1` with a
fresh non-zero offset: the adversarial provider of claim C3. -/
def always_more_env : SyncEnv where
  cfg := ⟨"cid", "sec"⟩
  token_oracle := fun _ => ⟨1, "", "", 0, none⟩
  now := 0
  tz := 0
  tokens := some ⟨"acc", "ref", 1000000, none, "active", 0⟩
  measure_oracle := fun _ _ off => some ⟨0, some 1, some (off + 1), []⟩
  activity_oracle := fun _ _ off => some ⟨0, some 1, some (off + 1), []⟩
  sleep_oracle := fun _ _ off => some ⟨0, some 1, some (off + 1), []⟩

/-- Environment with a valid token whose data oracles always fail at the
transport layer (used as concrete witness input). -/
def failing_oracle_env : SyncEnv where
  cfg := ⟨"cid", "sec"⟩
  token_oracle := fun _ => ⟨1, "", "", 0, none⟩
  now := 0
  tz := 0
  tokens := some ⟨"acc", "ref", 1000000, none, "active", 0⟩
  measure_oracle := fun _ _ _ => none
  activity_oracle := fun _ _ _ => none
  sleep_oracle := fun _ _ _ => none

/-! ## Auxiliary lemmas -/

theorem length_mk (cs : List Char) : (String.mk cs).length = cs.length := rfl

theorem be_bytes_length : ∀ (k n : Nat), (be_bytes k n).length = k
  | 0, _ => rfl
  | k + 1, n => by simp [be_bytes, be_bytes_length k]

theorem sha256_length (m : List Nat) : (sha256 m).length = 32 := by
  simp [sha256, be_bytes_length]

theorem hmac_sha256_length (key msg : List Nat) :
    (hmac_sha256 key msg).length = 32 := by
  simp [hmac_sha256, sha256_length]

theorem hex_fold_length (l : List Nat) :
    (l.foldr (fun b cs => hex_digit (b / 16 % 16) :: hex_digit (b % 16) :: cs) []).length =
      2 * l.length := by
  induction l with
  | nil => rfl
  | cons b rest ih => simp [List.foldr, ih]; omega

theorem bytes_hex_length (l : List Nat) : (bytes_hex l).length = 2 * l.length := by
  rw [bytes_hex, length_mk, hex_fold_length]

theorem b64_chunks_length : ∀ l : List Nat,
    (b64_chunks l).length = 4 * ((l.length + 2) / 3)
  | [] => rfl
  | [_] => by simp [b64_chunks]
  | [_, _] => by simp [b64_chunks]
  | _ :: _ :: _ :: rest => by
      have ih := b64_chunks_length rest
      simp [b64_chunks, ih]
      omega

theorem b64encode_length (l : List Nat) :
    (b64encode l).length = 4 * ((l.length + 2) / 3) := by
  rw [b64encode, length_mk, b64_chunks_length]

/-- All measures of a group carry the three keys the parse loop indexes. -/
def measures_wf (ms : List WithingsMeasure) : Prop :=
  ∀ m ∈ ms, m.value ≠ none ∧ m.unit ≠ none ∧ m.type ≠ none

instance (ms : List WithingsMeasure) : Decidable (measures_wf ms) := by
  unfold measures_wf; infer_instance

/-- Some measure of the group has the given type code. -/
def has_meas (ms : List WithingsMeasure) (t : Int) : Prop :=
  ∃ m ∈ ms, m.type = some t

instance (ms : List WithingsMeasure) (t : Int) : Decidable (has_meas ms t) := by
  unfold has_meas; infer_instance

theorem body_fold_ok : ∀ ms : List WithingsMeasure, measures_wf ms →
    ∀ acc₀ : BodyAcc, ∃ acc, ms.foldlM body_measure_step acc₀ = Except.ok acc ∧
      (acc.weight_kg = none ↔ acc₀.weight_kg = none ∧ ¬ has_meas ms MEAS_TYPE_WEIGHT) := by
  intro ms
  induction ms with
  | nil =>
      intro _ acc₀
      exact ⟨acc₀, rfl, by simp [has_meas]⟩
  | cons m rest ih =>
      intro h acc₀
      obtain ⟨hv0, hu0, ht0⟩ := h m (List.mem_cons_self m rest)
      obtain ⟨v, hv⟩ := Option.ne_none_iff_exists'.mp hv0
      obtain ⟨u, hu⟩ := Option.ne_none_iff_exists'.mp hu0
      obtain ⟨ty, ht⟩ := Option.ne_none_iff_exists'.mp ht0
      have hrest : measures_wf rest := fun x hx => h x (List.mem_cons_of_mem m hx)
      obtain ⟨acc, hfold, hiff⟩ := ih hrest
        (if ty = MEAS_TYPE_WEIGHT then { acc₀ with weight_kg := some (parse_withings_value v u) }
         else if ty = MEAS_TYPE_FAT_MASS then { acc₀ with fat_mass_kg := some (parse_withings_value v u) }
         else if ty = MEAS_TYPE_MUSCLE_MASS then { acc₀ with muscle_mass_kg := some (parse_withings_value v u) }
         else if ty = MEAS_TYPE_BONE_MASS then { acc₀ with bone_mass_kg := some (parse_withings_value v u) }
         else if ty = MEAS_TYPE_BODY_WATER then { acc₀ with body_water_pct := some (parse_withings_value v u) }
         else acc₀)
      refine ⟨acc, ?_, ?_⟩
      · rw [List.foldlM_cons]
        have hstep : body_measure_step acc₀ m = Except.ok
            (if ty = MEAS_TYPE_WEIGHT then { acc₀ with weight_kg := some (parse_withings_value v u) }
             else if ty = MEAS_TYPE_FAT_MASS then { acc₀ with fat_mass_kg := some (parse_withings_value v u) }
             else if ty = MEAS_TYPE_MUSCLE_MASS then { acc₀ with muscle_mass_kg := some (parse_withings_value v u) }
             else if ty = MEAS_TYPE_BONE_MASS then { acc₀ with bone_mass_kg := some (parse_withings_value v u) }
             else if ty = MEAS_TYPE_BODY_WATER then { acc₀ with body_water_pct := some (parse_withings_value v u) }
             else acc₀) := by
          simp only [body_measure_step, keyGet, hv, hu, ht]
          rfl
        rw [hstep]
        simpa using hfold
      · rw [hiff]
        by_cases hty : ty = MEAS_TYPE_WEIGHT
        · simp [hty, has_meas, ht, MEAS_TYPE_WEIGHT, MEAS_TYPE_SYSTOLIC,
            MEAS_TYPE_DIASTOLIC, MEAS_TYPE_HEART_RATE]
        · have hw : (if ty = MEAS_TYPE_WEIGHT then { acc₀ with weight_kg := some (parse_withings_value v u) }
             else if ty = MEAS_TYPE_FAT_MASS then { acc₀ with fat_mass_kg := some (parse_withings_value v u) }
             else if ty = MEAS_TYPE_MUSCLE_MASS then { acc₀ with muscle_mass_kg := some (parse_withings_value v u) }
             else if ty = MEAS_TYPE_BONE_MASS then { acc₀ with bone_mass_kg := some (parse_withings_value v u) }
             else if ty = MEAS_TYPE_BODY_WATER then { acc₀ with body_water_pct := some (parse_withings_value v u) }
             else acc₀ : BodyAcc).weight_kg = acc₀.weight_kg := by
            rw [if_neg hty]; split_ifs <;> rfl
          rw [hw]
          have : has_meas (m :: rest) MEAS_TYPE_WEIGHT ↔ has_meas rest MEAS_TYPE_WEIGHT := by
            simp [has_meas, ht, hty]
          rw [this]

theorem bp_fold_ok : ∀ ms : List WithingsMeasure, measures_wf ms →
    ∀ acc₀ : BpAcc, ∃ acc, ms.foldlM bp_measure_step acc₀ = Except.ok acc ∧
      (acc.systolic = none ↔ acc₀.systolic = none ∧ ¬ has_meas ms MEAS_TYPE_SYSTOLIC) ∧
      (acc.diastolic = none ↔ acc₀.diastolic = none ∧ ¬ has_meas ms MEAS_TYPE_DIASTOLIC) := by
  intro ms
  induction ms with
  | nil =>
      intro _ acc₀
      exact ⟨acc₀, rfl, by simp [has_meas], by simp [has_meas]⟩
  | cons m rest ih =>
      intro h acc₀
      obtain ⟨hv0, hu0, ht0⟩ := h m (List.mem_cons_self m rest)
      obtain ⟨v, hv⟩ := Option.ne_none_iff_exists'.mp hv0
      obtain ⟨u, hu⟩ := Option.ne_none_iff_exists'.mp hu0
      obtain ⟨ty, ht⟩ := Option.ne_none_iff_exists'.mp ht0
      have hrest : measures_wf rest := fun x hx => h x (List.mem_cons_of_mem m hx)
      obtain ⟨acc, hfold, hiff1, hiff2⟩ := ih hrest
        (if ty = MEAS_TYPE_SYSTOLIC then { acc₀ with systolic := some (pyInt (parse_withings_value v u)) }
         else if ty = MEAS_TYPE_DIASTOLIC then { acc₀ with diastolic := some (pyInt (parse_withings_value v u)) }
         else if ty = MEAS_TYPE_HEART_RATE then { acc₀ with heart_rate := some (pyInt (parse_withings_value v u)) }
         else acc₀)
      refine ⟨acc, ?_, ?_, ?_⟩
      · rw [List.foldlM_cons]
        have hstep : bp_measure_step acc₀ m = Except.ok
            (if ty = MEAS_TYPE_SYSTOLIC then { acc₀ with systolic := some (pyInt (parse_withings_value v u)) }
             else if ty = MEAS_TYPE_DIASTOLIC then { acc₀ with diastolic := some (pyInt (parse_withings_value v u)) }
             else if ty = MEAS_TYPE_HEART_RATE then { acc₀ with heart_rate := some (pyInt (parse_withings_value v u)) }
             else acc₀) := by
          simp only [bp_measure_step, keyGet, hv, hu, ht]
          rfl
        rw [hstep]
        simpa using hfold
      · rw [hiff1]
        by_cases hty : ty = MEAS_TYPE_SYSTOLIC
        · simp [hty, has_meas, ht, MEAS_TYPE_WEIGHT, MEAS_TYPE_SYSTOLIC,
            MEAS_TYPE_DIASTOLIC, MEAS_TYPE_HEART_RATE]
        · have hw : (if ty = MEAS_TYPE_SYSTOLIC then { acc₀ with systolic := some (pyInt (parse_withings_value v u)) }
             else if ty = MEAS_TYPE_DIASTOLIC then { acc₀ with diastolic := some (pyInt (parse_withings_value v u)) }
             else if ty = MEAS_TYPE_HEART_RATE then { acc₀ with heart_rate := some (pyInt (parse_withings_value v u)) }
             else acc₀ : BpAcc).systolic = acc₀.systolic := by
            rw [if_neg hty]; split_ifs <;> rfl
          rw [hw]
          have : has_meas (m :: rest) MEAS_TYPE_SYSTOLIC ↔ has_meas rest MEAS_TYPE_SYSTOLIC := by
            simp [has_meas, ht, hty]
          rw [this]
      · rw [hiff2]
        by_cases hty : ty = MEAS_TYPE_DIASTOLIC
        · simp [hty, has_meas, ht, MEAS_TYPE_WEIGHT, MEAS_TYPE_SYSTOLIC,
            MEAS_TYPE_DIASTOLIC, MEAS_TYPE_HEART_RATE]
        · have hw : (if ty = MEAS_TYPE_SYSTOLIC then { acc₀ with systolic := some (pyInt (parse_withings_value v u)) }
             else if ty = MEAS_TYPE_DIASTOLIC then { acc₀ with diastolic := some (pyInt (parse_withings_value v u)) }
             else if ty = MEAS_TYPE_HEART_RATE then { acc₀ with heart_rate := some (pyInt (parse_withings_value v u)) }
             else acc₀ : BpAcc).diastolic = acc₀.diastolic := by
            by_cases h1 : ty = MEAS_TYPE_SYSTOLIC
            · rw [if_pos h1]
            · rw [if_neg h1, if_neg hty]; split_ifs <;> rfl
          rw [hw]
          have : has_meas (m :: rest) MEAS_TYPE_DIASTOLIC ↔ has_meas rest MEAS_TYPE_DIASTOLIC := by
            simp [has_meas, ht, hty]
          rw [this]

theorem ok_bind {ε α β : Type} (a : α) (f : α → Except ε β) :
    (Except.ok a : Except ε α) >>= f = f a := rfl

theorem sync_body_one_skip (tz : Int) (db : Db) (g : MeasureGroup)
    (hwf : measures_wf g.measures) (hw : ¬ has_meas g.measures MEAS_TYPE_WEIGHT) :
    sync_body_one tz db g = Except.ok (0, db) := by
  rw [sync_body_one]
  by_cases hded : db.body_measurements.any (fun r => r.withings_id == pyStr g.grpid) = true
  · rw [if_pos hded]
  · rw [if_neg hded]
    obtain ⟨acc, hfold, hiff⟩ := body_fold_ok g.measures hwf ⟨none, none, none, none, none⟩
    have hwn : acc.weight_kg = none := hiff.mpr ⟨rfl, hw⟩
    simp only [hfold, ok_bind, hwn]

theorem sync_bp_one_skip (tz : Int) (db : Db) (g : MeasureGroup)
    (hwf : measures_wf g.measures)
    (hmiss : ¬ has_meas g.measures MEAS_TYPE_SYSTOLIC ∨
      ¬ has_meas g.measures MEAS_TYPE_DIASTOLIC) :
    sync_bp_one tz db g = Except.ok (0, db) := by
  rw [sync_bp_one]
  by_cases hded : db.blood_pressure.any (fun r => r.withings_id == pyStr g.grpid) = true
  · rw [if_pos hded]
  · rw [if_neg hded]
    obtain ⟨acc, hfold, hiff1, hiff2⟩ := bp_fold_ok g.measures hwf ⟨none, none, none⟩
    simp only [hfold, ok_bind]
    rcases hmiss with hm | hm
    · have hs : acc.systolic = none := hiff1.mpr ⟨rfl, hm⟩
      rw [hs]
    · have hd : acc.diastolic = none := hiff2.mpr ⟨rfl, hm⟩
      rw [hd]
      cases acc.systolic <;> rfl

theorem sync_body_one_insert (tz : Int) (db : Db) (g : MeasureGroup)
    (hwf : measures_wf g.measures) (hw : has_meas g.measures MEAS_TYPE_WEIGHT)
    (hts : g.date ≠ none)
    (hfresh : ∀ r ∈ db.body_measurements, r.withings_id ≠ pyStr g.grpid) :
    ∃ row : BodyRow, row.withings_id = pyStr g.grpid ∧
      sync_body_one tz db g =
        Except.ok (1, { db with body_measurements := db.body_measurements ++ [row] }) := by
  have hded : db.body_measurements.any (fun r => r.withings_id == pyStr g.grpid) = false := by
    rw [List.any_eq_false]
    intro r hr
    simpa using hfresh r hr
  obtain ⟨acc, hfold, hiff⟩ := body_fold_ok g.measures hwf ⟨none, none, none, none, none⟩
  have hwk : acc.weight_kg ≠ none := by
    rw [Ne, hiff]
    rintro ⟨-, hno⟩
    exact hno hw
  obtain ⟨w, hwv⟩ := Option.ne_none_iff_exists'.mp hwk
  obtain ⟨ts, htv⟩ := Option.ne_none_iff_exists'.mp hts
  refine ⟨⟨(split_naive (local_naive tz ts)).1, (split_naive (local_naive tz ts)).2,
    kg_to_lbs w, none, truthy_map kg_to_lbs acc.fat_mass_kg,
    truthy_map kg_to_lbs acc.muscle_mass_kg, truthy_map kg_to_lbs acc.bone_mass_kg,
    acc.body_water_pct, "withings", pyStr g.grpid⟩, rfl, ?_⟩
  rw [sync_body_one, if_neg (by rw [hded]; exact Bool.false_ne_true)]
  simp only [hfold, ok_bind, hwv, htv, fromtimestamp_opt]

theorem sync_bp_one_insert (tz : Int) (db : Db) (g : MeasureGroup)
    (hwf : measures_wf g.measures)
    (hsys : has_meas g.measures MEAS_TYPE_SYSTOLIC)
    (hdia : has_meas g.measures MEAS_TYPE_DIASTOLIC)
    (hts : g.date ≠ none)
    (hfresh : ∀ r ∈ db.blood_pressure, r.withings_id ≠ pyStr g.grpid) :
    ∃ row : BloodPressureRow, row.withings_id = pyStr g.grpid ∧
      sync_bp_one tz db g =
        Except.ok (1, { db with blood_pressure := db.blood_pressure ++ [row] }) := by
  have hded : db.blood_pressure.any (fun r => r.withings_id == pyStr g.grpid) = false := by
    rw [List.any_eq_false]
    intro r hr
    simpa using hfresh r hr
  obtain ⟨acc, hfold, hiff1, hiff2⟩ := bp_fold_ok g.measures hwf ⟨none, none, none⟩
  have hsk : acc.systolic ≠ none := by
    rw [Ne, hiff1]
    rintro ⟨-, hno⟩
    exact hno hsys
  have hdk : acc.diastolic ≠ none := by
    rw [Ne, hiff2]
    rintro ⟨-, hno⟩
    exact hno hdia
  obtain ⟨sysv, hsv⟩ := Option.ne_none_iff_exists'.mp hsk
  obtain ⟨diav, hdv⟩ := Option.ne_none_iff_exists'.mp hdk
  obtain ⟨ts, htv⟩ := Option.ne_none_iff_exists'.mp hts
  refine ⟨⟨(split_naive (local_naive tz ts)).1, (split_naive (local_naive tz ts)).2,
    sysv, diav, acc.heart_rate, "withings", pyStr g.grpid⟩, rfl, ?_⟩
  rw [sync_bp_one, if_neg (by rw [hded]; exact Bool.false_ne_true)]
  simp only [hfold, ok_bind, hsv, hdv, htv, fromtimestamp_opt]

theorem sync_sleep_one_insert (tz : Int) (db : Db) (s : SleepSeries) (d : String)
    (hd : s.date = some d) (hne : d ≠ "")
    (hfresh : ∀ r ∈ db.sleep, r.withings_id ≠ sleep_ext_id s) :
    ∃ row : SleepRow, row.withings_id = sleep_ext_id s ∧
      sync_sleep_one tz db s = (1, { db with sleep := db.sleep ++ [row] }) := by
  have hded : db.sleep.any (fun r => r.withings_id == sleep_ext_id s) = false := by
    rw [List.any_eq_false]
    intro r hr
    simpa using hfresh r hr
  refine ⟨⟨d, truthy_local tz s.startdate, truthy_local tz s.enddate,
    (if s.data.deepsleepduration.getD 0 + s.data.lightsleepduration.getD 0 +
        s.data.remsleepduration.getD 0 = 0 then none
     else some ((s.data.deepsleepduration.getD 0 + s.data.lightsleepduration.getD 0 +
        s.data.remsleepduration.getD 0).fdiv 60)),
    truthy_div60 s.data.deepsleepduration, truthy_div60 s.data.lightsleepduration,
    truthy_div60 s.data.remsleepduration, truthy_div60 s.data.wakeupduration,
    "withings", sleep_ext_id s⟩, rfl, ?_⟩
  simp only [sync_sleep_one, hd]
  rw [if_neg hne, if_neg (by rw [hded]; exact Bool.false_ne_true)]

theorem fetch_pages_always_more {α : Type} :
    ∀ (fuel off calls : Nat) (acc : List α),
      fetch_pages (fun o => some ⟨0, some 1, some (o + 1), []⟩) fuel off acc calls = none := by
  intro fuel
  induction fuel with
  | zero => intro off calls acc; rfl
  | succ n ih =>
      intro off calls acc
      simp only [fetch_pages, offset_truthy]
      norm_num
      exact ih (off + 1) (calls + 1) acc

theorem fetch_pages_single {α : Type} (o : Nat → Option (PageResp α))
    (off calls : Nat) (acc : List α) (h : single_page (o off)) :
    ∃ l, fetch_pages o 1 off acc calls = some (l, calls + 1) := by
  cases ho : o off with
  | none => exact ⟨acc, by simp only [fetch_pages, ho]⟩
  | some r =>
      by_cases hs : r.status ≠ 0
      · exact ⟨acc, by simp only [fetch_pages, ho]; rw [if_pos hs]⟩
      · refine ⟨acc ++ r.items, ?_⟩
        simp only [fetch_pages, ho]
        rw [if_neg hs, if_neg (fun hc => h r ho hc.1)]

theorem fetch_pages_fail {α : Type} (o : Nat → Option (PageResp α))
    (off calls : Nat) (acc : List α) (h : page_fails (o off)) :
    fetch_pages o 1 off acc calls = some (acc, calls + 1) := by
  cases ho : o off with
  | none => simp only [fetch_pages, ho]
  | some r => simp only [fetch_pages, ho]; rw [if_pos (h r ho)]

theorem fetch_pages_calls_le {α : Type} (o : Nat → Option (PageResp α)) :
    ∀ (fuel off calls : Nat) (acc l : List α) (n : Nat),
      fetch_pages o fuel off acc calls = some (l, n) → n ≤ calls + fuel := by
  intro fuel
  induction fuel with
  | zero => intro off calls acc l n h; simp [fetch_pages] at h
  | succ k ih =>
      intro off calls acc l n h
      cases ho : o off with
      | none =>
          simp only [fetch_pages, ho] at h
          simp at h
          omega
      | some r =>
          simp only [fetch_pages, ho] at h
          by_cases hs : r.status ≠ 0
          · rw [if_pos hs] at h
            simp at h
            omega
          · rw [if_neg hs] at h
            by_cases hmore : r.more = some 1 ∧ offset_truthy r.offset = true
            · rw [if_pos hmore] at h
              have := ih (r.offset.getD 0) (calls + 1) (acc ++ r.items) l n h
              omega
            · rw [if_neg hmore] at h
              simp at h
              omega

theorem chunks_fold_single {α : Type} (oracle : Int → Int → Nat → Option (PageResp α))
    (h : ∀ a b off, single_page (oracle a b off)) :
    ∀ (chunks : List (Int × Int)) (acc : List α) (calls : Nat),
      ∃ l, chunks.foldlM (fun (ac : List α × Nat) c =>
          (fetch_pages (oracle c.1 c.2) 1 0 [] 0).map (fun r => (ac.1 ++ r.1, ac.2 + r.2)))
        (acc, calls) = some (l, calls + chunks.length) := by
  intro chunks
  induction chunks with
  | nil => intro acc calls; exact ⟨acc, by simp⟩
  | cons c rest ih =>
      intro acc calls
      obtain ⟨l1, h1⟩ := fetch_pages_single (oracle c.1 c.2) 0 0 [] (h c.1 c.2 0)
      obtain ⟨l2, h2⟩ := ih (acc ++ l1) (calls + 1)
      refine ⟨l2, ?_⟩
      rw [List.foldlM_cons, h1]
      simp only [Option.map_some']
      show rest.foldlM _ (acc ++ l1, calls + 1) = _
      rw [h2]
      have : calls + 1 + rest.length = calls + (rest.length + 1) := by omega
      rw [this]
      rfl

/-- Number of stored body-composition rows carrying a given external id. -/
def body_rows_with_id (db : Db) (i : String) : Nat :=
  (db.body_measurements.filter (fun r => r.withings_id == i)).length

/-- Number of stored blood-pressure rows carrying a given external id. -/
def bp_rows_with_id (db : Db) (i : String) : Nat :=
  (db.blood_pressure.filter (fun r => r.withings_id == i)).length

/-- Number of stored sleep rows carrying a given external id. -/
def sleep_rows_with_id (db : Db) (i : String) : Nat :=
  (db.sleep.filter (fun r => r.withings_id == i)).length

/-! ## Claim C5 -/

/-- C5: evaluation of the code at the failing input of the repository's own
test `test_sync_body_measurements_uses_utc`.  With the host timezone set to
US/Pacific (UTC offset −28800 s) and the Withings timestamp 1705305600
(2024-01-15T08:00:00 UTC), the code uses `datetime.fromtimestamp` without a
timezone and therefore stores local time 2024-01-15 00:00:00 (day 19737,
second-of-day 0), while interpreting the instant in UTC — as the spec and
the test require — gives second-of-day 28800 (08:00:00). -/
theorem c5_fromtimestamp_uses_local_time :
    sync_body_measurements (-28800) ⟨[], [], [], []⟩
        [⟨some 54321, some 1705305600, [⟨some 80000, some (-3), some 1⟩]⟩] =
      Except.ok (1, ⟨[⟨19737, 0, kg_to_lbs (parse_withings_value 80000 (-3)),
        none, none, none, none, none, "withings", "54321"⟩], [], [], []⟩) ∧
    split_naive (local_naive 0 1705305600) = (19737, 28800) ∧
    (0 : Int) ≠ 28800 := by
  refine ⟨?_, by decide, by decide⟩
  rfl

/-! ## Claim C2 -/

/-- C2 counterexample: the claim states that `verify_signature` is false for
every string other than the correct (hex, per spec §6) HMAC-SHA256 of the
body.  The code also accepts the base64 encoding of the digest, which is a
different string (length 44 vs 64). -/
theorem c2_cex_base64_accepted :
    verify_signature "secret" (str_utf8 "body")
        (b64encode (hmac_sha256 (str_utf8 "secret") (str_utf8 "body"))) = true ∧
    b64encode (hmac_sha256 (str_utf8 "secret") (str_utf8 "body")) ≠
      bytes_hex (hmac_sha256 (str_utf8 "secret") (str_utf8 "body")) := by
  constructor
  · rw [verify_signature, if_neg (by decide)]
    simp
  · intro hEq
    have := congrArg String.length hEq
    rw [b64encode_length, bytes_hex_length, hmac_sha256_length] at this
    norm_num at this

/-- C2 (amended): for a configured (non-empty) secret, `verify_signature`
accepts exactly the hex and the base64 encodings of the HMAC-SHA256 of the
body under the secret — so a tampered body with the original body's
signature is rejected whenever its digest encodings differ from the original
signature — and with no secret configured it returns false for every body
and signature, without throwing. -/
theorem c2_verify_signature_iff (secret : String) (body : List Nat) (s : String)
    (h : secret ≠ "") :
    (verify_signature secret body s = true ↔
      s = bytes_hex (hmac_sha256 (str_utf8 secret) body) ∨
      s = b64encode (hmac_sha256 (str_utf8 secret) body)) ∧
    verify_signature "" body s = false := by
  constructor
  · rw [verify_signature, if_neg h]
    simp only [Bool.or_eq_true, beq_iff_eq]
    exact or_congr eq_comm eq_comm
  · rw [verify_signature, if_pos rfl]

/-- C2 witness: concrete instantiation of `c2_verify_signature_iff`. -/
theorem c2_verify_signature_iff_witness :
    ("k" : String) ≠ "" ∧
    verify_signature "k" [1, 2]
      (bytes_hex (hmac_sha256 (str_utf8 "k") [1, 2])) = true :=
  ⟨by decide,
   ((c2_verify_signature_iff "k" [1, 2]
      (bytes_hex (hmac_sha256 (str_utf8 "k") [1, 2])) (by decide)).1).mpr
     (Or.inl rfl)⟩

/-! ## Claim C1 -/

/-- C1: for any insertable record (well-formed measures, required fields
present, timestamp present, external id not yet stored), syncing it twice —
two sequential calls each given a list containing that record — inserts
exactly one row keyed by its external id; the second call returns a count of
0 and leaves the whole stored state unchanged.  Stated for each of the three
deduplicated domains: body composition, blood pressure, sleep. -/
theorem c1_sync_twice_inserts_once (tz : Int) :
    (∀ (db : Db) (g : MeasureGroup),
      measures_wf g.measures → has_meas g.measures MEAS_TYPE_WEIGHT →
      g.date ≠ none →
      (∀ r ∈ db.body_measurements, r.withings_id ≠ pyStr g.grpid) →
      ∃ db', sync_body_measurements tz db [g] = Except.ok (1, db') ∧
        body_rows_with_id db' (pyStr g.grpid) = 1 ∧
        sync_body_measurements tz db' [g] = Except.ok (0, db')) ∧
    (∀ (db : Db) (g : MeasureGroup),
      measures_wf g.measures → has_meas g.measures MEAS_TYPE_SYSTOLIC →
      has_meas g.measures MEAS_TYPE_DIASTOLIC → g.date ≠ none →
      (∀ r ∈ db.blood_pressure, r.withings_id ≠ pyStr g.grpid) →
      ∃ db', sync_blood_pressure tz db [g] = Except.ok (1, db') ∧
        bp_rows_with_id db' (pyStr g.grpid) = 1 ∧
        sync_blood_pressure tz db' [g] = Except.ok (0, db')) ∧
    (∀ (db : Db) (s : SleepSeries) (d : String),
      s.date = some d → d ≠ "" →
      (∀ r ∈ db.sleep, r.withings_id ≠ sleep_ext_id s) →
      ∃ db', sync_sleep tz db [s] = (1, db') ∧
        sleep_rows_with_id db' (sleep_ext_id s) = 1 ∧
        sync_sleep tz db' [s] = (0, db')) := by
  refine ⟨?_, ?_, ?_⟩
  · intro db g hwf hw hts hfresh
    obtain ⟨row, hrid, hone⟩ := sync_body_one_insert tz db g hwf hw hts hfresh
    refine ⟨{ db with body_measurements := db.body_measurements ++ [row] }, ?_, ?_, ?_⟩
    · simp [sync_body_measurements, hone, ok_bind]
    · rw [body_rows_with_id]
      have h1 : db.body_measurements.filter (fun r => r.withings_id == pyStr g.grpid) = [] := by
        rw [List.filter_eq_nil_iff]
        intro r hr
        simpa using hfresh r hr
      simp [List.filter_append, h1, List.filter, hrid]
    · have hdup : sync_body_one tz
          { db with body_measurements := db.body_measurements ++ [row] } g =
          Except.ok (0, { db with body_measurements := db.body_measurements ++ [row] }) := by
        rw [sync_body_one, if_pos (by simp [List.any_append, hrid])]
      simp [sync_body_measurements, hdup, ok_bind]
  · intro db g hwf hsys hdia hts hfresh
    obtain ⟨row, hrid, hone⟩ := sync_bp_one_insert tz db g hwf hsys hdia hts hfresh
    refine ⟨{ db with blood_pressure := db.blood_pressure ++ [row] }, ?_, ?_, ?_⟩
    · simp [sync_blood_pressure, hone, ok_bind]
    · rw [bp_rows_with_id]
      have h1 : db.blood_pressure.filter (fun r => r.withings_id == pyStr g.grpid) = [] := by
        rw [List.filter_eq_nil_iff]
        intro r hr
        simpa using hfresh r hr
      simp [List.filter_append, h1, List.filter, hrid]
    · have hdup : sync_bp_one tz
          { db with blood_pressure := db.blood_pressure ++ [row] } g =
          Except.ok (0, { db with blood_pressure := db.blood_pressure ++ [row] }) := by
        rw [sync_bp_one, if_pos (by simp [List.any_append, hrid])]
      simp [sync_blood_pressure, hdup, ok_bind]
  · intro db s d hd hne hfresh
    obtain ⟨row, hrid, hone⟩ := sync_sleep_one_insert tz db s d hd hne hfresh
    refine ⟨{ db with sleep := db.sleep ++ [row] }, ?_, ?_, ?_⟩
    · simp [sync_sleep, hone]
    · rw [sleep_rows_with_id]
      have h1 : db.sleep.filter (fun r => r.withings_id == sleep_ext_id s) = [] := by
        rw [List.filter_eq_nil_iff]
        intro r hr
        simpa using hfresh r hr
      simp [List.filter_append, h1, List.filter, hrid]
    · have hdup : sync_sleep_one tz { db with sleep := db.sleep ++ [row] } s =
          (0, { db with sleep := db.sleep ++ [row] }) := by
        simp only [sync_sleep_one, hd]
        rw [if_neg hne, if_pos (by simp [List.any_append, hrid])]
      simp [sync_sleep, hdup]

/-- C1 witness: concrete instantiation of `c1_sync_twice_inserts_once` for
all three domains. -/
theorem c1_sync_twice_inserts_once_witness :
    (∃ db', sync_body_measurements 0 ⟨[], [], [], []⟩
        [⟨some 12345, some 1705305600, [⟨some 80000, some (-3), some 1⟩]⟩] =
        Except.ok (1, db') ∧
      body_rows_with_id db' (pyStr (some 12345)) = 1 ∧
      sync_body_measurements 0 db'
        [⟨some 12345, some 1705305600, [⟨some 80000, some (-3), some 1⟩]⟩] =
        Except.ok (0, db')) ∧
    (∃ db', sync_blood_pressure 0 ⟨[], [], [], []⟩
        [⟨some 67890, some 1705309200,
          [⟨some 120, some 0, some 10⟩, ⟨some 80, some 0, some 9⟩]⟩] =
        Except.ok (1, db') ∧
      bp_rows_with_id db' (pyStr (some 67890)) = 1 ∧
      sync_blood_pressure 0 db'
        [⟨some 67890, some 1705309200,
          [⟨some 120, some 0, some 10⟩, ⟨some 80, some 0, some 9⟩]⟩] =
        Except.ok (0, db')) ∧
    (∃ db', sync_sleep 0 ⟨[], [], [], []⟩
        [⟨some 777, some "2024-01-15", some 1705285800, some 1705314600,
          ⟨none, none, some 7200, some 14400, some 5400, some 600⟩⟩] = (1, db') ∧
      sleep_rows_with_id db'
        (sleep_ext_id ⟨some 777, some "2024-01-15", some 1705285800, some 1705314600,
          ⟨none, none, some 7200, some 14400, some 5400, some 600⟩⟩) = 1 ∧
      sync_sleep 0 db'
        [⟨some 777, some "2024-01-15", some 1705285800, some 1705314600,
          ⟨none, none, some 7200, some 14400, some 5400, some 600⟩⟩] = (0, db')) :=
  ⟨(c1_sync_twice_inserts_once 0).1 ⟨[], [], [], []⟩
      ⟨some 12345, some 1705305600, [⟨some 80000, some (-3), some 1⟩]⟩
      (by decide) (by decide) (by decide) (by simp),
   (c1_sync_twice_inserts_once 0).2.1 ⟨[], [], [], []⟩
      ⟨some 67890, some 1705309200,
        [⟨some 120, some 0, some 10⟩, ⟨some 80, some 0, some 9⟩]⟩
      (by decide) (by decide) (by decide) (by decide) (by simp),
   (c1_sync_twice_inserts_once 0).2.2 ⟨[], [], [], []⟩
      ⟨some 777, some "2024-01-15", some 1705285800, some 1705314600,
        ⟨none, none, some 7200, some 14400, some 5400, some 600⟩⟩
      "2024-01-15" rfl (by decide) (by simp)⟩

/-! ## Claim C7 -/

/-- C7: a body-composition group with no weight measurement, and a
blood-pressure group missing systolic or diastolic, are silently skipped:
they contribute zero inserted rows, leave the store unchanged, and raise no
exception — the sync of a list starting with such a group equals the sync of
the rest of the list. -/
theorem c7_required_field_skip (tz : Int) :
    (∀ (db : Db) (g : MeasureGroup) (rest : List MeasureGroup),
      measures_wf g.measures → ¬ has_meas g.measures MEAS_TYPE_WEIGHT →
      sync_body_measurements tz db (g :: rest) = sync_body_measurements tz db rest) ∧
    (∀ (db : Db) (g : MeasureGroup) (rest : List MeasureGroup),
      measures_wf g.measures →
      (¬ has_meas g.measures MEAS_TYPE_SYSTOLIC ∨
       ¬ has_meas g.measures MEAS_TYPE_DIASTOLIC) →
      sync_blood_pressure tz db (g :: rest) = sync_blood_pressure tz db rest) := by
  constructor
  · intro db g rest hwf hw
    have hskip := sync_body_one_skip tz db g hwf hw
    simp [sync_body_measurements, List.foldlM_cons, hskip, ok_bind]
  · intro db g rest hwf hmiss
    have hskip := sync_bp_one_skip tz db g hwf hmiss
    simp [sync_blood_pressure, List.foldlM_cons, hskip, ok_bind]

/-- C7 witness: concrete instantiation of `c7_required_field_skip` with a
fat-mass-only body group and a systolic-only blood-pressure group. -/
theorem c7_required_field_skip_witness :
    sync_body_measurements 0 ⟨[], [], [], []⟩
      [⟨some 1, some 0, [⟨some 5000, some (-3), some 8⟩]⟩] =
      sync_body_measurements 0 ⟨[], [], [], []⟩ [] ∧
    sync_blood_pressure 0 ⟨[], [], [], []⟩
      [⟨some 2, some 0, [⟨some 120, some 0, some 10⟩]⟩] =
      sync_blood_pressure 0 ⟨[], [], [], []⟩ [] :=
  ⟨(c7_required_field_skip 0).1 ⟨[], [], [], []⟩
      ⟨some 1, some 0, [⟨some 5000, some (-3), some 8⟩]⟩ [] (by decide) (by decide),
   (c7_required_field_skip 0).2 ⟨[], [], [], []⟩
      ⟨some 2, some 0, [⟨some 120, some 0, some 10⟩]⟩ [] (by decide)
      (Or.inr (by decide))⟩

/-! ## Claim C3 -/

/-- C3 counterexample: under a provider oracle that always reports `more = 1`
with a valid (non-zero) offset and status 0, the cursor loop of
`fetch_measurements` — and hence the first chunk loop of `fetch_activity` —
never terminates: no amount of fuel makes it return, for the multi-year
window `[0, 729]`.  The source has no page bound, so the claimed
chunk-count-bounded termination fails. -/
theorem c3_cex_always_more_loops_forever :
    (¬ ∃ (fuel : Nat) (r : List MeasureGroup × Nat),
        fetch_measurements always_more_env fuel 0 729 = some r) ∧
    (¬ ∃ (fuel : Nat) (r : List WithingsActivity × Nat),
        fetch_activity always_more_env fuel 0 729 = some r) := by
  constructor
  · rintro ⟨fuel, r, hr⟩
    have hnone : fetch_measurements always_more_env fuel 0 729 = none := by
      show fetch_pages (fun o => some ⟨0, some 1, some (o + 1), []⟩) fuel 0 [] 0 = none
      exact fetch_pages_always_more fuel 0 0 []
    rw [hnone] at hr
    cases hr
  · rintro ⟨fuel, r, hr⟩
    have hch : generate_date_chunks 0 729 MAX_ACTIVITY_DAYS =
        [(0, 199), (200, 399), (400, 599), (600, 729)] := by decide
    have htok : env_token always_more_env = some "acc" := rfl
    rw [fetch_activity, htok, hch] at hr
    rw [List.foldlM_cons] at hr
    have hnone : fetch_pages (always_more_env.activity_oracle 0 199) fuel 0 [] 0 = none :=
      fetch_pages_always_more fuel 0 0 []
    rw [hnone] at hr
    cases hr

/-- C3 (amended): `fetch_activity` and `fetch_sleep` run exactly one cursor
loop per 200-day chunk of the window, and whenever every provider response
reports `more ≠ 1` the fetchers terminate with exactly one request per chunk
(`fetch_measurements` with one request; the chunked fetchers with exactly
`chunk count` requests); in general the number of requests of a cursor loop
never exceeds its iteration bound.  Termination is *not* guaranteed for an
oracle that keeps reporting `more = 1` with fresh offsets
(see the counterexample). -/
theorem c3_fetch_calls_bounded_by_chunks
    (env : SyncEnv) (s e : Int)
    (hm : ∀ a b off, single_page (env.measure_oracle a b off))
    (ha : ∀ a b off, single_page (env.activity_oracle a b off))
    (hsl : ∀ a b off, single_page (env.sleep_oracle a b off))
    (htok : env_token env ≠ none) :
    (∃ l, fetch_measurements env 1 s e = some (l, 1)) ∧
    (∃ l, fetch_activity env 1 s e =
      some (l, (generate_date_chunks s e MAX_ACTIVITY_DAYS).length)) ∧
    (∃ l, fetch_sleep env 1 s e =
      some (l, (generate_date_chunks s e MAX_ACTIVITY_DAYS).length)) ∧
    (∀ (oracle : Nat → Option (PageResp MeasureGroup)) (fuel off calls : Nat)
        (acc l : List MeasureGroup) (n : Nat),
      fetch_pages oracle fuel off acc calls = some (l, n) → n ≤ calls + fuel) := by
  obtain ⟨tok, htok'⟩ := Option.ne_none_iff_exists'.mp htok
  refine ⟨?_, ?_, ?_, ?_⟩
  · rw [fetch_measurements, htok']
    obtain ⟨l, hl⟩ := fetch_pages_single _ 0 0 [] (hm _ _ 0)
    exact ⟨l, hl⟩
  · rw [fetch_activity, htok']
    obtain ⟨l, hl⟩ := chunks_fold_single env.activity_oracle ha
      (generate_date_chunks s e MAX_ACTIVITY_DAYS) [] 0
    exact ⟨l, by simpa using hl⟩
  · rw [fetch_sleep, htok']
    obtain ⟨l, hl⟩ := chunks_fold_single env.sleep_oracle hsl
      (generate_date_chunks s e MAX_ACTIVITY_DAYS) [] 0
    exact ⟨l, by simpa using hl⟩
  · intro oracle fuel off calls acc l n h
    exact fetch_pages_calls_le oracle fuel off calls acc l n h

/-- C3 witness: concrete instantiation of `c3_fetch_calls_bounded_by_chunks`
over a 730-day window with transport-failing (hence single-page) oracles. -/
theorem c3_fetch_calls_bounded_by_chunks_witness :
    (∃ l, fetch_measurements failing_oracle_env 1 0 729 = some (l, 1)) ∧
    (∃ l, fetch_activity failing_oracle_env 1 0 729 =
      some (l, (generate_date_chunks 0 729 MAX_ACTIVITY_DAYS).length)) ∧
    (∃ l, fetch_sleep failing_oracle_env 1 0 729 =
      some (l, (generate_date_chunks 0 729 MAX_ACTIVITY_DAYS).length)) ∧
    (∀ (oracle : Nat → Option (PageResp MeasureGroup)) (fuel off calls : Nat)
        (acc l : List MeasureGroup) (n : Nat),
      fetch_pages oracle fuel off acc calls = some (l, n) → n ≤ calls + fuel) :=
  c3_fetch_calls_bounded_by_chunks failing_oracle_env 0 729
    (by intro a b off p hp; exact Option.noConfusion hp)
    (by intro a b off p hp; exact Option.noConfusion hp)
    (by intro a b off p hp; exact Option.noConfusion hp)
    (by decide)

/-! ## Claim C4 -/

/-- C4 counterexample: `backfill_all` has no exception handling, so a
blood-pressure sync that raises aborts the whole backfill.  Concretely: the
fetched group (grpid 7) is already stored in `body_measurements` (so the body
sync skips it) but not in `blood_pressure`, and its measure dictionary lacks
the `value` key; the blood-pressure parse raises `KeyError`, `backfill_all`
propagates it, and the activity and sleep syncs never run — no per-domain
count map is returned, contradicting the claim. -/
theorem c4_cex_bp_exception_aborts_backfill :
    backfill_all
      ⟨⟨"cid", "sec"⟩, fun _ => ⟨1, "", "", 0, none⟩, 0, 0,
        some ⟨"acc", "ref", 1000000, none, "active", 0⟩,
        fun _ _ _ => some ⟨0, none, none, [⟨some 7, some 0, [⟨none, none, some 10⟩]⟩]⟩,
        fun _ _ _ => none, fun _ _ _ => none⟩ 1
      ⟨[⟨0, 0, 0, none, none, none, none, none, "withings", "7"⟩], [], [], []⟩ 0 0 =
      some (Except.error "KeyError: value") := by
  rfl

/-- C4 (amended): failure isolation holds at the fetch layer, not at the sync
layer: when every measurements request fails (transport error or non-zero
provider status), `backfill_all` still runs all four domains and returns the
full per-domain count map, with zero counts for body and blood pressure and
the activity and sleep counts computed from their own oracles; but an
exception raised inside a sync (see the counterexample) aborts the remaining
domains. -/
theorem c4_fetch_failure_isolation (env : SyncEnv) (db : Db) (s e : Int)
    (hm : ∀ a b off, page_fails (env.measure_oracle a b off))
    (ha : ∀ a b off, single_page (env.activity_oracle a b off))
    (hsl : ∀ a b off, single_page (env.sleep_oracle a b off)) :
    ∃ cAct cSleep db', backfill_all env 1 db s e =
      some (Except.ok (⟨0, 0, cAct, cSleep⟩, db')) := by
  have hb : sync_body_measurements env.tz db [] = Except.ok (0, db) := rfl
  have hbp : sync_blood_pressure env.tz db [] = Except.ok (0, db) := rfl
  cases htok : env_token env with
  | none =>
      refine ⟨(sync_activity env.now db []).1,
        (sync_sleep env.tz (sync_activity env.now db []).2 []).1,
        (sync_sleep env.tz (sync_activity env.now db []).2 []).2, ?_⟩
      rw [backfill_all, fetch_measurements, htok, fetch_activity, htok,
        fetch_sleep, htok]
      simp only [hb, hbp]
  | some tok =>
      have hfm : fetch_measurements env 1 s e = some ([], 1) := by
        rw [fetch_measurements, htok]
        exact fetch_pages_fail _ 0 0 [] (hm _ _ 0)
      obtain ⟨l3, hfa⟩ := chunks_fold_single env.activity_oracle ha
        (generate_date_chunks s e MAX_ACTIVITY_DAYS) [] 0
      obtain ⟨l4, hfs⟩ := chunks_fold_single env.sleep_oracle hsl
        (generate_date_chunks s e MAX_ACTIVITY_DAYS) [] 0
      refine ⟨(sync_activity env.now db l3).1,
        (sync_sleep env.tz (sync_activity env.now db l3).2 l4).1,
        (sync_sleep env.tz (sync_activity env.now db l3).2 l4).2, ?_⟩
      rw [backfill_all, hfm]
      simp only [hb, hbp]
      rw [fetch_activity, htok, hfa, fetch_sleep, htok, hfs]

/-- C4 witness: concrete instantiation of `c4_fetch_failure_isolation` with
transport-failing oracles on the empty store. -/
theorem c4_fetch_failure_isolation_witness :
    ∃ cAct cSleep db', backfill_all failing_oracle_env 1 ⟨[], [], [], []⟩ 0 0 =
      some (Except.ok (⟨0, 0, cAct, cSleep⟩, db')) :=
  c4_fetch_failure_isolation failing_oracle_env ⟨[], [], [], []⟩ 0 0
    (by intro a b off p hp; exact Option.noConfusion hp)
    (by intro a b off p hp; exact Option.noConfusion hp)
    (by intro a b off p hp; exact Option.noConfusion hp)

/-! ## Claim C9 -/

/-- C9: for a domain code outside {1, 4, 16, 44}, `sync_by_appli` invokes no
fetch or sync function, logs an unknown-code warning, and returns 0 with the
store untouched rather than raising; and the webhook handler's response is
`ok` whenever signature verification passes, independent of the appli code
(the sync runs as a background task after the response). -/
theorem c9_unknown_appli_ignored (env : SyncEnv) (fuel : Nat) (db : Db)
    (today : Int) (appli : Int) (sd ed : Option Int)
    (h : appli ∉ ([1, 4, 16, 44] : List Int)) :
    sync_by_appli env fuel db today appli sd ed =
      some ⟨Except.ok (0, db), [], ["Unknown appli code: " ++ toString appli]⟩ ∧
    (∀ (secret : String) (body : List Nat) (sig : String) (ap : Int),
      verify_signature secret body sig = true →
      webhook_response secret body sig ap = Except.ok "ok") := by
  constructor
  · have h1 : appli ≠ 1 := fun hc => h (by simp [hc])
    have h4 : appli ≠ 4 := fun hc => h (by simp [hc])
    have h16 : appli ≠ 16 := fun hc => h (by simp [hc])
    have h44 : appli ≠ 44 := fun hc => h (by simp [hc])
    rw [sync_by_appli, if_neg h1, if_neg h4, if_neg h16, if_neg h44]
  · intro secret body sig ap hv
    rw [webhook_response, if_pos hv]

/-- C9 witness: concrete instantiation of `c9_unknown_appli_ignored` at the
unknown appli code 99. -/
theorem c9_unknown_appli_ignored_witness :
    sync_by_appli
      ⟨⟨"", ""⟩, fun _ => ⟨1, "", "", 0, none⟩, 0, 0, none,
        fun _ _ _ => none, fun _ _ _ => none, fun _ _ _ => none⟩ 0
      ⟨[], [], [], []⟩ 0 99 none none =
      some ⟨Except.ok (0, ⟨[], [], [], []⟩), [],
        ["Unknown appli code: " ++ toString (99 : Int)]⟩ ∧
    (∀ (secret : String) (body : List Nat) (sig : String) (ap : Int),
      verify_signature secret body sig = true →
      webhook_response secret body sig ap = Except.ok "ok") :=
  c9_unknown_appli_ignored
    ⟨⟨"", ""⟩, fun _ => ⟨1, "", "", 0, none⟩, 0, 0, none,
      fun _ _ _ => none, fun _ _ _ => none, fun _ _ _ => none⟩ 0
    ⟨[], [], [], []⟩ 0 99 none none (by decide)

/-! ## Claims C8 and C10 -/

/-- C8: `is_token_valid()` returns true iff a credential record exists and the
current UTC time is strictly earlier than the stored expiry minus a 60-second
margin; with no stored credential it returns false. -/
theorem c8_is_token_valid_iff (now : Int) (st : Option WithingsTokens) :
    is_token_valid now st = true ↔
      ∃ t, st = some t ∧ now < t.expires_at - 60 := by
  cases st with
  | none => simp [is_token_valid]
  | some t => simp [is_token_valid]

/-- C10: `save_tokens` with an absent `withings_user_id` while a credential
row exists keeps the previously stored external user id, overwrites the
access token, refresh token and expiry, and resets the status to `active`;
in particular a successful `refresh_tokens` whose provider response omits
`userid` never clears the stored user id. -/
theorem c10_save_tokens_preserves_user_id
    (now : Int) (t : WithingsTokens) (a r : String) (e : Int)
    (cfg : Settings) (oracle : String → RefreshResp)
    (hcid : cfg.withings_client_id ≠ "")
    (hcs : cfg.withings_client_secret ≠ "")
    (hok : (oracle t.refresh_token).status = 0)
    (huid : (oracle t.refresh_token).userid = none) :
    save_tokens now (some t) a r e none =
      some ⟨a, r, e, t.withings_user_id, "active", now⟩ ∧
    (refresh_tokens cfg oracle now (some t)).1 =
      some ⟨(oracle t.refresh_token).access_token,
            (oracle t.refresh_token).refresh_token,
            now + (oracle t.refresh_token).expires_in,
            t.withings_user_id, "active", now⟩ := by
  constructor
  · simp [save_tokens]
  · simp [refresh_tokens, hcid, hcs, hok, save_tokens, huid]

/-! ## Claim C6 (refresh denial and subsequent token requests) -/

/-- C6 counterexample: the claim fails on the code as stated.  With a stored
credential whose expiry is still in the future and a provider that denies the
refresh, `refresh_tokens` does set `needs_reauth` and returns no credential —
but a subsequent `get_valid_token` call still returns the access token,
because `is_token_valid` checks only the expiry, never the status flag. -/
theorem c6_cex_valid_token_returned_after_denied_refresh :
    (refresh_tokens ⟨"cid", "sec"⟩ (fun _ => ⟨1, "", "", 0, none⟩) 0
        (some ⟨"acc", "ref", 1000, none, "active", 0⟩)).1 =
      some ⟨"acc", "ref", 1000, none, "needs_reauth", 0⟩ ∧
    (refresh_tokens ⟨"cid", "sec"⟩ (fun _ => ⟨1, "", "", 0, none⟩) 0
        (some ⟨"acc", "ref", 1000, none, "active", 0⟩)).2 = none ∧
    (get_valid_token ⟨"cid", "sec"⟩ (fun _ => ⟨1, "", "", 0, none⟩) 0
        (some ⟨"acc", "ref", 1000, none, "needs_reauth", 0⟩)).2 = some "acc" := by
  refine ⟨?_, ?_, ?_⟩ <;> rfl

/-- C6 (amended): when the provider answers every refresh request with a
non-zero status, `refresh_tokens` sets the stored credential's status to
`needs_reauth` (leaving the expiry unchanged) and returns no credential, and
a subsequent `get_valid_token` call made while the access token is expired
(past the 60-second margin) returns no token. -/
theorem c6_refresh_denied_needs_reauth
    (cfg : Settings) (oracle : String → RefreshResp)
    (now₁ now₂ : Int) (t : WithingsTokens)
    (hcid : cfg.withings_client_id ≠ "")
    (hcs : cfg.withings_client_secret ≠ "")
    (hdeny : ∀ rt, (oracle rt).status ≠ 0)
    (hexp : t.expires_at - 60 ≤ now₂) :
    (refresh_tokens cfg oracle now₁ (some t)).1 =
      some { t with status := "needs_reauth", updated_at := now₁ } ∧
    (refresh_tokens cfg oracle now₁ (some t)).2 = none ∧
    (get_valid_token cfg oracle now₂
        ((refresh_tokens cfg oracle now₁ (some t)).1)).2 = none := by
  have hr : refresh_tokens cfg oracle now₁ (some t) =
      (some { t with status := "needs_reauth", updated_at := now₁ }, none) := by
    simp [refresh_tokens, hcid, hcs, hdeny t.refresh_token, set_status]
  refine ⟨by rw [hr], by rw [hr], ?_⟩
  rw [hr]
  have hv : is_token_valid now₂
      (some { t with status := "needs_reauth", updated_at := now₁ }) = false := by
    simp [is_token_valid]
    omega
  simp [get_valid_token, hv, refresh_tokens, hcid, hcs,
    hdeny ({ t with status := "needs_reauth", updated_at := now₁ } :
      WithingsTokens).refresh_token, set_status]

/-- C6 witness: concrete instantiation of `c6_refresh_denied_needs_reauth`. -/
theorem c6_refresh_denied_needs_reauth_witness :
    (refresh_tokens ⟨"cid", "sec"⟩ (fun _ => ⟨503, "", "", 0, none⟩) 10
        (some ⟨"acc", "ref", 50, none, "active", 0⟩)).1 =
      some ⟨"acc", "ref", 50, none, "needs_reauth", 10⟩ ∧
    (refresh_tokens ⟨"cid", "sec"⟩ (fun _ => ⟨503, "", "", 0, none⟩) 10
        (some ⟨"acc", "ref", 50, none, "active", 0⟩)).2 = none ∧
    (get_valid_token ⟨"cid", "sec"⟩ (fun _ => ⟨503, "", "", 0, none⟩) 20
        ((refresh_tokens ⟨"cid", "sec"⟩ (fun _ => ⟨503, "", "", 0, none⟩) 10
            (some ⟨"acc", "ref", 50, none, "active", 0⟩)).1)).2 = none :=
  c6_refresh_denied_needs_reauth ⟨"cid", "sec"⟩ (fun _ => ⟨503, "", "", 0, none⟩)
    10 20 ⟨"acc", "ref", 50, none, "active", 0⟩
    (by decide) (by decide) (by intro rt; show (503 : Int) ≠ 0; decide) (by decide)

/-- C10 witness: concrete instantiation of `c10_save_tokens_preserves_user_id`. -/
theorem c10_save_tokens_preserves_user_id_witness :
    save_tokens 5 (some ⟨"oldA", "oldR", 100, some "u77", "active", 0⟩) "newA" "newR" 200 none =
      some ⟨"newA", "newR", 200, some "u77", "active", 5⟩ ∧
    (refresh_tokens ⟨"cid", "sec"⟩ (fun _ => ⟨0, "rA", "rR", 3600, none⟩) 5
        (some ⟨"oldA", "oldR", 100, some "u77", "active", 0⟩)).1 =
      some ⟨"rA", "rR", 5 + 3600, some "u77", "active", 5⟩ :=
  c10_save_tokens_preserves_user_id 5 ⟨"oldA", "oldR", 100, some "u77", "active", 0⟩
    "newA" "newR" 200 ⟨"cid", "sec"⟩ (fun _ => ⟨0, "rA", "rR", 3600, none⟩)
    (by decide) (by decide) rfl rfl

end Withings
